import Mathlib

/-!
Verification development for the identity/credential subsystem of a
Hyperledger-Fabric Go SDK.  The endpoint utilities, TLS configuration,
CA client protocol (enroll / reenroll / register) and connection-option
functions are embedded shallowly; addresses and byte strings are lists of
characters, machine errors are an inductive error type.
-/

namespace FabSDK

/-- Byte-level prefix test on character lists; mirrors the Go
`strings.HasPrefix` used by the endpoint utilities. -/
def startsWith : List Char → List Char → Bool
  | [], _ => true
  | _ :: _, [] => false
  | p :: ps, c :: cs => p == c && startsWith ps cs

/-- Modelled from the spec: the endpoint utility deciding whether a
connection attempt should be TLS-secured (the implementation file is
absent; test `TestAttemptSecured` pins its behaviour).  An explicit
`https://`/`grpcs://` scheme forces secure, `http://`/`grpc://` forces
insecure, and a scheme-less address returns the negation of the
caller-supplied allow-insecure flag. -/
def AttemptSecured (address : List Char) (allowInSecure : Bool) : Bool :=
  if startsWith "grpcs://".data address then true
  else if startsWith "https://".data address then true
  else if startsWith "grpc://".data address then false
  else if startsWith "http://".data address then false
  else !allowInSecure

/-- TLS configuration holding a certificate as a file path or as an
in-line PEM string. -/
structure TLSConfig where
  Path : String
  Pem : String
deriving DecidableEq, Repr

/-- Modelled from the spec: `TLSConfig.Bytes` (implementation file
absent; test `TestTLSConfig_Bytes` pins its behaviour) returns the raw
bytes of the configured PEM string, with no error and no PEM-validity
check; an empty PEM yields a zero-length byte result. -/
def TLSConfig.Bytes (cfg : TLSConfig) : Except String (List Char) :=
  if cfg.Pem = "" then .ok []
  else .ok cfg.Pem.data

/-- Unique key for a stored identity: member (MSP) id plus name. -/
structure IdentityIdentifier where
  mspID : String
  id : String
deriving DecidableEq, Repr

/-- Opaque private-key handle produced by the Crypto Suite. -/
structure KeyRef where
  ref : Nat
deriving DecidableEq, Repr

/-- A signed certificate: the embedded public key plus the subject it
was issued for. -/
structure Certificate where
  pubKey : Nat
  subject : String
deriving DecidableEq, Repr

/-- Serialized enrollment data: certificate plus private-key reference. -/
structure EnrollmentCredential where
  certificate : Certificate
  privateKeyRef : KeyRef
  enrollmentID : String
deriving DecidableEq, Repr

/-- Modelled from the spec: the Crypto Suite collaborator (absent from
the sources).  `nextKey` is the fresh-key counter consumed by
`GenerateKey`; `pub` derives the public key from a key reference. -/
structure CryptoSuite where
  nextKey : Nat
  pub : Nat → Nat

/-- A single attribute of a registration request. -/
structure Attribute where
  key : String
  value : String
deriving DecidableEq, Repr

/-- Registration request as in the spec's data model. -/
structure RegistrationRequest where
  name : String
  type : String
  affiliation : String
  attributes : List Attribute
  maxEnrollments : Int
  secret : Option String
deriving DecidableEq, Repr

/-- Modelled from the spec: the mock CA server used by the tests
(absent from the sources).  `accepts` is its enrollment-id/secret
database; `issueSecret` is the one-time secret it issues on
registration. -/
structure MockCA where
  accepts : String → String → Bool
  issueSecret : RegistrationRequest → String

/-- A cancellable request context; only the already-canceled flag is
observable before a call is issued. -/
structure RequestContext where
  canceled : Bool
deriving DecidableEq, Repr

/-- Error taxonomy of the subsystem (spec section 7). -/
inductive CAError where
  | invalidArgument (msg : String)
  | userNotFound
  | registrarNotFound
  | validationError (msg : String)
  | transportError (msg : String)
  | cancellation
  | configurationError (field : String) (cause : String)
deriving DecidableEq, Repr

/-- User-visible message of an error. -/
def CAError.message : CAError → String
  | .invalidArgument m => m
  | .userNotFound => "user not found"
  | .registrarNotFound => "CA registrar not found"
  | .validationError m => m
  | .transportError m => m
  | .cancellation => "context canceled"
  | .configurationError f c => f ++ ": " ++ c

/-- The Credential Store contents: one record per identifier, most
recent first (last-writer-wins). -/
def CredentialStore := List (IdentityIdentifier × EnrollmentCredential)

/-- `Load` of the Credential Store: first record for the identifier. -/
def storeLoad : CredentialStore → IdentityIdentifier → Option EnrollmentCredential
  | [], _ => none
  | (k, v) :: rest, idn => if k = idn then some v else storeLoad rest idn

/-- `Store` of the Credential Store: prepend, so the newest write wins. -/
def storeSave (store : CredentialStore) (idn : IdentityIdentifier)
    (cred : EnrollmentCredential) : CredentialStore :=
  (idn, cred) :: store

/-- CA client configuration resolved at construction: the member
organization's MSP id and the optional registrar identity. -/
structure CAClientCfg where
  orgMSPID : String
  registrar : Option IdentityIdentifier

/-- Outcome of an enrollment-protocol operation: the result, the
Credential Store and Crypto Suite after the call, and how many network
calls were issued. -/
structure EnrollOutcome where
  result : Except CAError Unit
  store : CredentialStore
  crypto : CryptoSuite
  networkCalls : Nat

/-- Modelled from the spec: `CAClientImpl.Enroll` (implementation file
absent; tests `TestEnrollAndReenroll` pin its behaviour).  Empty
enrollment id or secret is rejected with `InvalidArgument` before any
network call; an already-canceled context fails fast; otherwise a fresh
key pair is generated, the CSR is exchanged with the CA, the issued
certificate is validated against the key reference and only then
persisted. -/
def Enroll (ca : MockCA) (cfg : CAClientCfg) (ctx : RequestContext)
    (crypto : CryptoSuite) (store : CredentialStore)
    (enrollmentID secret : String) : EnrollOutcome :=
  if enrollmentID = "" then
    ⟨.error (.invalidArgument "enrollmentID required"), store, crypto, 0⟩
  else if secret = "" then
    ⟨.error (.invalidArgument "enrollmentSecret required"), store, crypto, 0⟩
  else if ctx.canceled then
    ⟨.error .cancellation, store, crypto, 0⟩
  else
    let keyRef : KeyRef := ⟨crypto.nextKey⟩
    let crypto2 : CryptoSuite := ⟨crypto.nextKey + 1, crypto.pub⟩
    let csrPub : Nat := crypto.pub keyRef.ref
    if ca.accepts enrollmentID secret then
      let cert : Certificate := ⟨csrPub, enrollmentID⟩
      if cert.pubKey = crypto2.pub keyRef.ref then
        let cred : EnrollmentCredential := ⟨cert, keyRef, enrollmentID⟩
        ⟨.ok (), storeSave store ⟨cfg.orgMSPID, enrollmentID⟩ cred, crypto2, 1⟩
      else
        ⟨.error (.validationError "certificate key mismatch"), store, crypto2, 1⟩
    else
      ⟨.error (.transportError "enrollment failed"), store, crypto2, 1⟩

/-- Modelled from the spec: `CAClientImpl.Reenroll` (implementation file
absent; tests pin its behaviour).  An empty name is rejected with the
message "user name missing"; a name with no prior enrollment fails with
`NotFoundError`; otherwise the stored identity authenticates a fresh
CSR exchange whose result replaces the stored credential. -/
def Reenroll (ca : MockCA) (cfg : CAClientCfg) (ctx : RequestContext)
    (crypto : CryptoSuite) (store : CredentialStore)
    (enrollmentID : String) : EnrollOutcome :=
  if enrollmentID = "" then
    ⟨.error (.invalidArgument "user name missing"), store, crypto, 0⟩
  else
    match storeLoad store ⟨cfg.orgMSPID, enrollmentID⟩ with
    | none => ⟨.error .userNotFound, store, crypto, 0⟩
    | some _ =>
      if ctx.canceled then
        ⟨.error .cancellation, store, crypto, 0⟩
      else
        let keyRef : KeyRef := ⟨crypto.nextKey⟩
        let crypto2 : CryptoSuite := ⟨crypto.nextKey + 1, crypto.pub⟩
        let cert : Certificate := ⟨crypto.pub keyRef.ref, enrollmentID⟩
        let cred : EnrollmentCredential := ⟨cert, keyRef, enrollmentID⟩
        ⟨.ok (), storeSave store ⟨cfg.orgMSPID, enrollmentID⟩ cred, crypto2, 1⟩

/-- Modelled from the spec: `CAClientImpl.Register` (implementation file
absent; tests `TestRegister`/`TestRegisterNoRegistrar` pin its
behaviour).  Registrar absence is checked before any request-shape
validation and yields the sentinel `registrarNotFound`; a `nil` request
or empty name yields `InvalidArgument`; otherwise the CA-issued
one-time secret is returned unmodified.  The second component counts
network calls. -/
def Register (ca : MockCA) (cfg : CAClientCfg) (ctx : RequestContext)
    (request : Option RegistrationRequest) : Except CAError String × Nat :=
  match cfg.registrar with
  | none => (.error .registrarNotFound, 0)
  | some _ =>
    match request with
    | none => (.error (.invalidArgument "registration request is required"), 0)
    | some r =>
      if r.name = "" then
        (.error (.invalidArgument "request.Name is required"), 0)
      else if ctx.canceled then
        (.error .cancellation, 0)
      else
        (.ok (ca.issueSecret r), 1)

/-- Modelled from the spec: the generic request-context guard of the
transport adapter (implementation absent; `TestParentContext` pins its
behaviour): an already-canceled context fails fast with a cancellation
error and the network call is never issued. -/
def withRequestContext {α : Type} (ctx : RequestContext)
    (call : Unit → Except CAError α) : Except CAError α × Nat :=
  if ctx.canceled then (.error .cancellation, 0) else (call (), 1)

/-- Modelled from the spec: a network query (`QueryChannels` and
equivalents) issued through the request-context guard. -/
def QueryChannels (ctx : RequestContext) (channels : List String) :
    Except CAError (List String) × Nat :=
  withRequestContext ctx (fun _ => .ok channels)

/-- Per-CA configuration entry (url etc.); only its presence matters to
the claims. -/
structure CAConfig where
  url : String
deriving DecidableEq, Repr

/-- The configuration lookups `NewCAClient` performs, each succeeding or
failing with an underlying cause. -/
structure CoreConfig where
  caConfig : Except String CAConfig
  caServerCertPaths : Except String (List String)
  caClientCertPath : Except String String
  caClientKeyPath : Except String String

/-- Settings a successfully constructed CA client holds. -/
structure CASettings where
  caConfig : CAConfig
  serverCertPaths : List String
  clientCertPath : String
  clientKeyPath : String
deriving DecidableEq, Repr

/-- Modelled from the spec: `NewCAClient` configuration processing
(implementation file absent; tests `TestCAConfigError` ..
`TestCAClientKeyPathError` pin its behaviour).  The lookups happen in
the fixed order CA config, CA server cert paths, CA client cert path,
CA client key path; the first failure is wrapped into an error naming
the failing field and preserving the cause. -/
def NewCAClient (cfg : CoreConfig) : Except CAError CASettings :=
  match cfg.caConfig with
  | .error cause => .error (.configurationError "CAConfig" cause)
  | .ok caCfg =>
    match cfg.caServerCertPaths with
    | .error cause => .error (.configurationError "CAServerCertPaths" cause)
    | .ok serverCerts =>
      match cfg.caClientCertPath with
      | .error cause => .error (.configurationError "CAClientCertPath" cause)
      | .ok clientCert =>
        match cfg.caClientKeyPath with
        | .error cause => .error (.configurationError "CAClientKeyPath" cause)
        | .ok clientKey => .ok ⟨caCfg, serverCerts, clientCert, clientKey⟩

/-- Mock CA used as concrete input: accepts every id/secret pair and
issues the secret `mockSecretValue`, like `MockFabricCAServer`. -/
def mockCA1 : MockCA :=
  ⟨fun _ _ => true, fun _ => "mockSecretValue"⟩

/-- A request context that has not been canceled. -/
def liveCtx : RequestContext := ⟨false⟩

/-- A request context canceled before any call is issued. -/
def canceledCtx : RequestContext := ⟨true⟩

/-- A concrete crypto suite: fresh keys from 0, public key derived by
adding 100. -/
def crypto1 : CryptoSuite := ⟨0, fun n => n + 100⟩

/-- The valid registration request used by `TestRegister`. -/
def validReq : RegistrationRequest :=
  ⟨"test", "", "test", [⟨"test1", "test2"⟩, ⟨"test2", "test3"⟩], 0, none⟩

/-- An empty registration request, as in `Register(&RegistrationRequest{})`. -/
def emptyReq : RegistrationRequest := ⟨"", "", "", [], 0, none⟩

/-- X509 certificate value carried by the TLS connection options. -/
structure X509Certificate where
  raw : List Nat
deriving DecidableEq, Repr

/-- gRPC keep-alive client parameters (`keepalive.ClientParameters`). -/
structure ClientParameters where
  time : Nat
  timeout : Nat
  permitWithoutStream : Bool
deriving DecidableEq, Repr

/-- Connection parameters of `pkg/fab/comm/connectionopts.go`. -/
structure params where
  hostOverride : String
  certificate : Option X509Certificate
  keepAliveParams : ClientParameters
  failFast : Bool
  insecure : Bool
  connectTimeout : Nat
deriving DecidableEq, Repr

/-- `defaultParams` of connectionopts.go: fail-fast on and a 3-second
connect timeout (in nanoseconds), all other fields zero-valued. -/
def defaultParams : params :=
  ⟨"", none, ⟨0, 0, false⟩, true, false, 3000000000⟩

/-- A consumer of connection options (`options.Params`): for each setter
interface of connectionopts.go it either implements the setter or does
not (`none`), mirroring the Go dynamic interface check. -/
structure OptTarget (σ : Type) where
  setHostOverride : Option (String → σ → σ)
  setCertificate : Option (Option X509Certificate → σ → σ)
  setKeepAliveParams : Option (ClientParameters → σ → σ)
  setFailFast : Option (Bool → σ → σ)
  setInsecure : Option (Bool → σ → σ)
  setConnectTimeout : Option (Nat → σ → σ)

/-- An option function (`options.Opt`) over a target state. -/
def Opt (σ : Type) := OptTarget σ → σ → σ

/-- `WithHostOverride` sets the host name used to resolve the TLS
certificate, when the target implements `hostOverrideSetter`. -/
def WithHostOverride {σ : Type} (value : String) : Opt σ := fun t s =>
  match t.setHostOverride with
  | some setter => setter value s
  | none => s

/-- `WithCertificate` sets the X509 certificate used for the TLS
connection, when the target implements `certificateSetter`. -/
def WithCertificate {σ : Type} (value : Option X509Certificate) : Opt σ :=
  fun t s =>
  match t.setCertificate with
  | some setter => setter value s
  | none => s

/-- `WithKeepAliveParams` sets the gRPC keep-alive parameters, when the
target implements `keepAliveParamsSetter`. -/
def WithKeepAliveParams {σ : Type} (value : ClientParameters) : Opt σ :=
  fun t s =>
  match t.setKeepAliveParams with
  | some setter => setter value s
  | none => s

/-- `WithFailFast` sets the gRPC fail-fast parameter, when the target
implements `failFastSetter`. -/
def WithFailFast {σ : Type} (value : Bool) : Opt σ := fun t s =>
  match t.setFailFast with
  | some setter => setter value s
  | none => s

/-- `WithConnectTimeout` sets the gRPC connection timeout, when the
target implements `connectTimeoutSetter`. -/
def WithConnectTimeout {σ : Type} (value : Nat) : Opt σ := fun t s =>
  match t.setConnectTimeout with
  | some setter => setter value s
  | none => s

/-- `WithInsecure` sets the insecure flag to `true`, when the target
implements `insecureSetter`. -/
def WithInsecure {σ : Type} : Opt σ := fun t s =>
  match t.setInsecure with
  | some setter => setter true s
  | none => s

/-- `func (p *params) SetHostOverride(value string)`. -/
def params.SetHostOverride (p : params) (value : String) : params :=
  { p with hostOverride := value }

/-- `func (p *params) SetCertificate(value *x509.Certificate)`. -/
def params.SetCertificate (p : params) (value : Option X509Certificate) :
    params :=
  { p with certificate := value }

/-- `func (p *params) SetKeepAliveParams(value keepalive.ClientParameters)`. -/
def params.SetKeepAliveParams (p : params) (value : ClientParameters) :
    params :=
  { p with keepAliveParams := value }

/-- `func (p *params) SetFailFast(value bool)`. -/
def params.SetFailFast (p : params) (value : Bool) : params :=
  { p with failFast := value }

/-- `func (p *params) SetConnectTimeout(value time.Duration)`. -/
def params.SetConnectTimeout (p : params) (value : Nat) : params :=
  { p with connectTimeout := value }

/-- `func (p *params) SetInsecure(value bool)`. -/
def params.SetInsecure (p : params) (value : Bool) : params :=
  { p with insecure := value }

/-- The concrete `*params` value as an option target: it implements all
six setter interfaces. -/
def paramsTarget : OptTarget params :=
  ⟨some (fun v p => p.SetHostOverride v),
   some (fun v p => p.SetCertificate v),
   some (fun v p => p.SetKeepAliveParams v),
   some (fun v p => p.SetFailFast v),
   some (fun v p => p.SetInsecure v),
   some (fun v p => p.SetConnectTimeout v)⟩

/-- A target implementing none of the setter interfaces, over a plain
number state. -/
def emptyTarget : OptTarget Nat := ⟨none, none, none, none, none, none⟩

/-- Two prefixes of a common list are comparable: one is a prefix of the
other. -/
theorem startsWith_comparable (p q s : List Char) (hp : startsWith p s = true)
    (hq : startsWith q s = true) :
    startsWith p q = true ∨ startsWith q p = true := by
  induction s generalizing p q with
  | nil =>
    cases p with
    | nil => exact Or.inl rfl
    | cons a as => simp [startsWith] at hp
  | cons c cs ih =>
    cases p with
    | nil => exact Or.inl rfl
    | cons a as =>
      cases q with
      | nil => exact Or.inr rfl
      | cons b bs =>
        simp only [startsWith, Bool.and_eq_true, beq_iff_eq] at hp hq
        rcases hp with ⟨rfl, hp2⟩
        rcases hq with ⟨rfl, hq2⟩
        rcases ih as bs hp2 hq2 with h | h
        · exact Or.inl (by simp [startsWith, h])
        · exact Or.inr (by simp [startsWith, h])

/-- If two candidate prefixes are mutually incomparable, an address
matching the first cannot match the second. -/
theorem startsWith_excl (p q s : List Char) (hpq : startsWith p q = false)
    (hqp : startsWith q p = false) (h : startsWith p s = true) :
    startsWith q s = false := by
  by_contra hc
  rw [Bool.not_eq_false] at hc
  rcases startsWith_comparable p q s h hc with h1 | h1
  · rw [hpq] at h1; exact Bool.false_ne_true h1
  · rw [hqp] at h1; exact Bool.false_ne_true h1

/-- Claim C3, counterexample: the claim says a scheme-less address makes
`AttemptSecured` return the caller-supplied boolean unchanged, but on
the address `some.url` with the flag `true` the result is `false` (test
`TestAttemptSecured` pins this inversion). -/
theorem attemptSecured_default_counterexample :
    ¬ (AttemptSecured ("some.url".data) true = true) := by decide

/-- Claim C3 (amended): `AttemptSecured` of a `grpc://`-prefixed address
is `false` and of a `grpcs://`-prefixed address is `true`, regardless of
the flag; a scheme-less address (none of the four recognized schemes)
yields the negation of the caller-supplied allow-insecure flag. -/
theorem attemptSecured_scheme_behavior (address : List Char) (d : Bool) :
    (startsWith "grpc://".data address = true → AttemptSecured address d = false) ∧
    (startsWith "grpcs://".data address = true → AttemptSecured address d = true) ∧
    (startsWith "grpcs://".data address = false →
     startsWith "https://".data address = false →
     startsWith "grpc://".data address = false →
     startsWith "http://".data address = false →
     AttemptSecured address d = !d) := by
  refine ⟨?_, ?_, ?_⟩
  · intro h
    have hgrpcs : startsWith "grpcs://".data address = false :=
      startsWith_excl "grpc://".data "grpcs://".data address (by decide) (by decide) h
    have hhttps : startsWith "https://".data address = false :=
      startsWith_excl "grpc://".data "https://".data address (by decide) (by decide) h
    simp [AttemptSecured, hgrpcs, hhttps, h]
  · intro h
    simp [AttemptSecured, h]
  · intro h1 h2 h3 h4
    simp [AttemptSecured, h1, h2, h3, h4]

/-- Witness for C3's amended theorem at the tested concrete addresses. -/
theorem attemptSecured_scheme_behavior_witness :
    AttemptSecured ("grpc://some.url".data) true = false ∧
    AttemptSecured ("grpcs://some.url".data) false = true ∧
    AttemptSecured ("some.url".data) false = !false :=
  ⟨(attemptSecured_scheme_behavior ("grpc://some.url".data) true).1 (by decide),
   (attemptSecured_scheme_behavior ("grpcs://some.url".data) false).2.1 (by decide),
   (attemptSecured_scheme_behavior ("some.url".data) false).2.2
     (by decide) (by decide) (by decide) (by decide)⟩

/-- Claim C8: `TLSConfig.Bytes` is a pure passthrough of the configured
PEM string regardless of PEM validity: an empty PEM yields a zero-length
byte result with no error, and any non-empty PEM yields exactly its raw
bytes with no error. -/
theorem tlsConfig_bytes_passthrough (cfg : TLSConfig) :
    (cfg.Pem = "" → ∃ b, TLSConfig.Bytes cfg = .ok b ∧ b.length = 0) ∧
    (cfg.Pem ≠ "" → TLSConfig.Bytes cfg = .ok cfg.Pem.data) := by
  constructor
  · intro h
    exact ⟨[], by simp [TLSConfig.Bytes, h], rfl⟩
  · intro h
    simp [TLSConfig.Bytes, h]

/-- Witness for C8 at the tested configurations: empty PEM and the
invalid PEM string used by `TestTLSConfig_Bytes`. -/
theorem tlsConfig_bytes_passthrough_witness :
    (∃ b, TLSConfig.Bytes ⟨"", ""⟩ = .ok b ∧ b.length = 0) ∧
    TLSConfig.Bytes ⟨"", "wrongpemvalue"⟩ = .ok ("wrongpemvalue".data) :=
  ⟨(tlsConfig_bytes_passthrough ⟨"", ""⟩).1 rfl,
   (tlsConfig_bytes_passthrough ⟨"", "wrongpemvalue"⟩).2 (by decide)⟩

/-- Claim C1: for every non-empty enrollment id and secret accepted by
the CA, a successful `Enroll` followed by `Load` on the resulting
identity identifier returns a stored credential whose certificate
embeds the public key the Crypto Suite derives from the stored
private-key reference. -/
theorem enroll_load_roundtrip (ca : MockCA) (cfg : CAClientCfg)
    (ctx : RequestContext) (crypto : CryptoSuite) (store : CredentialStore)
    (enrollmentID secret : String) (hid : enrollmentID ≠ "")
    (hsecret : secret ≠ "") (hca : ca.accepts enrollmentID secret = true)
    (hctx : ctx.canceled = false) :
    (Enroll ca cfg ctx crypto store enrollmentID secret).result = .ok () ∧
    ∃ cred,
      storeLoad (Enroll ca cfg ctx crypto store enrollmentID secret).store
        ⟨cfg.orgMSPID, enrollmentID⟩ = some cred ∧
      cred.certificate.pubKey =
        (Enroll ca cfg ctx crypto store enrollmentID secret).crypto.pub
          cred.privateKeyRef.ref ∧
      cred.enrollmentID = enrollmentID := by
  refine ⟨?_, ⟨⟨⟨crypto.pub crypto.nextKey, enrollmentID⟩, ⟨crypto.nextKey⟩,
    enrollmentID⟩, ?_, ?_, rfl⟩⟩
  · simp [Enroll, hid, hsecret, hctx, hca]
  · simp [Enroll, hid, hsecret, hctx, hca, storeLoad, storeSave]
  · simp [Enroll, hid, hsecret, hctx, hca]

/-- Witness for C1 at a concrete enrollment accepted by the mock CA. -/
theorem enroll_load_roundtrip_witness :
    (Enroll mockCA1 ⟨"Org1MSP", none⟩ liveCtx crypto1 [] "enrolledUsername"
      "enrollmentSecret").result = .ok () ∧
    ∃ cred,
      storeLoad (Enroll mockCA1 ⟨"Org1MSP", none⟩ liveCtx crypto1 []
          "enrolledUsername" "enrollmentSecret").store
        ⟨"Org1MSP", "enrolledUsername"⟩ = some cred ∧
      cred.certificate.pubKey =
        (Enroll mockCA1 ⟨"Org1MSP", none⟩ liveCtx crypto1 [] "enrolledUsername"
          "enrollmentSecret").crypto.pub cred.privateKeyRef.ref ∧
      cred.enrollmentID = "enrolledUsername" :=
  enroll_load_roundtrip mockCA1 ⟨"Org1MSP", none⟩ liveCtx crypto1 []
    "enrolledUsername" "enrollmentSecret" (by decide) (by decide) rfl rfl

/-- Claim C2: with no registrar configured, `Register` fails with the
sentinel `registrarNotFound` for every request — nil, empty, or valid —
and issues no network call; the registrar check comes before any
request validation. -/
theorem register_no_registrar (ca : MockCA) (cfg : CAClientCfg)
    (ctx : RequestContext) (request : Option RegistrationRequest)
    (h : cfg.registrar = none) :
    Register ca cfg ctx request = (.error .registrarNotFound, 0) := by
  simp [Register, h]

/-- Witness for C2 at the three request shapes of
`TestRegisterNoRegistrar`. -/
theorem register_no_registrar_witness :
    Register mockCA1 ⟨"Org1MSP", none⟩ liveCtx none =
      (.error .registrarNotFound, 0) ∧
    Register mockCA1 ⟨"Org1MSP", none⟩ liveCtx (some emptyReq) =
      (.error .registrarNotFound, 0) ∧
    Register mockCA1 ⟨"Org1MSP", none⟩ liveCtx (some validReq) =
      (.error .registrarNotFound, 0) :=
  ⟨register_no_registrar mockCA1 ⟨"Org1MSP", none⟩ liveCtx none rfl,
   register_no_registrar mockCA1 ⟨"Org1MSP", none⟩ liveCtx (some emptyReq) rfl,
   register_no_registrar mockCA1 ⟨"Org1MSP", none⟩ liveCtx (some validReq) rfl⟩

/-- Claim C4: `Enroll` with an empty enrollment id (any secret) or an
empty secret (any id) fails with `InvalidArgument`, issues zero network
calls and leaves the Credential Store unchanged. -/
theorem enroll_empty_args (ca : MockCA) (cfg : CAClientCfg)
    (ctx : RequestContext) (crypto : CryptoSuite) (store : CredentialStore) :
    (∀ secret, ∃ m,
      (Enroll ca cfg ctx crypto store "" secret).result =
        .error (.invalidArgument m) ∧
      (Enroll ca cfg ctx crypto store "" secret).networkCalls = 0 ∧
      (Enroll ca cfg ctx crypto store "" secret).store = store) ∧
    (∀ enrollmentID, ∃ m,
      (Enroll ca cfg ctx crypto store enrollmentID "").result =
        .error (.invalidArgument m) ∧
      (Enroll ca cfg ctx crypto store enrollmentID "").networkCalls = 0 ∧
      (Enroll ca cfg ctx crypto store enrollmentID "").store = store) := by
  constructor
  · intro secret
    exact ⟨"enrollmentID required", rfl, rfl, rfl⟩
  · intro enrollmentID
    by_cases h : enrollmentID = ""
    · subst h
      exact ⟨"enrollmentID required", rfl, rfl, rfl⟩
    · exact ⟨"enrollmentSecret required", by simp [Enroll, h],
        by simp [Enroll, h], by simp [Enroll, h]⟩

/-- Claim C5: `Reenroll` of an empty name fails with an error whose
message is exactly "user name missing", and `Reenroll` of a (non-empty)
name with no prior enrollment in the store fails with `NotFoundError`. -/
theorem reenroll_missing_user (ca : MockCA) (cfg : CAClientCfg)
    (ctx : RequestContext) (crypto : CryptoSuite) (store : CredentialStore)
    (name : String) (hname : name ≠ "")
    (habsent : storeLoad store ⟨cfg.orgMSPID, name⟩ = none) :
    (∃ e, (Reenroll ca cfg ctx crypto store "").result = .error e ∧
      e.message = "user name missing") ∧
    (Reenroll ca cfg ctx crypto store name).result = .error .userNotFound := by
  constructor
  · exact ⟨.invalidArgument "user name missing", rfl, rfl⟩
  · simp [Reenroll, hname, habsent]

/-- Witness for C5: the empty name and a never-enrolled name over an
empty store. -/
theorem reenroll_missing_user_witness :
    (∃ e, (Reenroll mockCA1 ⟨"Org1MSP", none⟩ liveCtx crypto1 [] "").result =
      .error e ∧ e.message = "user name missing") ∧
    (Reenroll mockCA1 ⟨"Org1MSP", none⟩ liveCtx crypto1 []
      "neverEnrolled").result = .error .userNotFound :=
  reenroll_missing_user mockCA1 ⟨"Org1MSP", none⟩ liveCtx crypto1 []
    "neverEnrolled" (by decide) rfl

/-- Claim C6: the configuration lookups of `NewCAClient` are checked in
the fixed order CA config, CA server cert paths, CA client cert path,
CA client key path; the first failure surfaces as a wrapped error naming
the failing field (the four field names are pairwise distinct) and
preserving the originating cause, before any later lookup is
consulted. -/
theorem newCAClient_config_error_order (cfg : CoreConfig) :
    (∀ cause, cfg.caConfig = .error cause →
      NewCAClient cfg = .error (.configurationError "CAConfig" cause)) ∧
    (∀ c cause, cfg.caConfig = .ok c → cfg.caServerCertPaths = .error cause →
      NewCAClient cfg = .error (.configurationError "CAServerCertPaths" cause)) ∧
    (∀ c ps cause, cfg.caConfig = .ok c → cfg.caServerCertPaths = .ok ps →
      cfg.caClientCertPath = .error cause →
      NewCAClient cfg = .error (.configurationError "CAClientCertPath" cause)) ∧
    (∀ c ps cp cause, cfg.caConfig = .ok c → cfg.caServerCertPaths = .ok ps →
      cfg.caClientCertPath = .ok cp → cfg.caClientKeyPath = .error cause →
      NewCAClient cfg = .error (.configurationError "CAClientKeyPath" cause)) ∧
    (["CAConfig", "CAServerCertPaths", "CAClientCertPath",
      "CAClientKeyPath"] : List String).Nodup := by
  refine ⟨?_, ?_, ?_, ?_, by decide⟩
  · intro cause h1
    simp [NewCAClient, h1]
  · intro c cause h1 h2
    simp [NewCAClient, h1, h2]
  · intro c ps cause h1 h2 h3
    simp [NewCAClient, h1, h2, h3]
  · intro c ps cp cause h1 h2 h3 h4
    simp [NewCAClient, h1, h2, h3, h4]

/-- Witness for C6: the four mock configurations of the tests, each
failing at a different lookup stage. -/
theorem newCAClient_config_error_order_witness :
    NewCAClient ⟨.error "CAConfig error", .ok ["test"], .ok "", .ok ""⟩ =
      .error (.configurationError "CAConfig" "CAConfig error") ∧
    NewCAClient ⟨.ok ⟨"url"⟩, .error "CAServerCertPaths error", .ok "", .ok ""⟩ =
      .error (.configurationError "CAServerCertPaths" "CAServerCertPaths error") ∧
    NewCAClient ⟨.ok ⟨"url"⟩, .ok ["test"], .error "CAClientCertPath error",
        .ok ""⟩ =
      .error (.configurationError "CAClientCertPath" "CAClientCertPath error") ∧
    NewCAClient ⟨.ok ⟨"url"⟩, .ok ["test"], .ok "",
        .error "CAClientKeyPath error"⟩ =
      .error (.configurationError "CAClientKeyPath" "CAClientKeyPath error") :=
  ⟨(newCAClient_config_error_order _).1 "CAConfig error" rfl,
   (newCAClient_config_error_order _).2.1 ⟨"url"⟩ "CAServerCertPaths error"
     rfl rfl,
   (newCAClient_config_error_order _).2.2.1 ⟨"url"⟩ ["test"]
     "CAClientCertPath error" rfl rfl rfl,
   (newCAClient_config_error_order _).2.2.2.1 ⟨"url"⟩ ["test"] ""
     "CAClientKeyPath error" rfl rfl rfl rfl⟩

/-- Claim C7: with a parent context already canceled, network
operations (`Enroll` with non-empty arguments, `QueryChannels`) never
issue the network call and fail with the cancellation error, which is
distinct from success and from every other error kind. -/
theorem canceled_context_fails_fast (ca : MockCA) (cfg : CAClientCfg)
    (ctx : RequestContext) (crypto : CryptoSuite) (store : CredentialStore)
    (enrollmentID secret : String) (channels : List String)
    (hctx : ctx.canceled = true) (hid : enrollmentID ≠ "")
    (hsecret : secret ≠ "") :
    ((Enroll ca cfg ctx crypto store enrollmentID secret).result =
        .error .cancellation ∧
     (Enroll ca cfg ctx crypto store enrollmentID secret).networkCalls = 0 ∧
     (Enroll ca cfg ctx crypto store enrollmentID secret).store = store) ∧
    QueryChannels ctx channels = (.error .cancellation, 0) ∧
    ((Except.error CAError.cancellation : Except CAError Unit) ≠ .ok ()) ∧
    (∀ m, CAError.cancellation ≠ CAError.invalidArgument m) ∧
    CAError.cancellation ≠ CAError.userNotFound ∧
    CAError.cancellation ≠ CAError.registrarNotFound ∧
    (∀ m, CAError.cancellation ≠ CAError.validationError m) ∧
    (∀ m, CAError.cancellation ≠ CAError.transportError m) ∧
    (∀ f c, CAError.cancellation ≠ CAError.configurationError f c) := by
  refine ⟨⟨?_, ?_, ?_⟩, ?_, by simp, fun m => by simp, by simp, by simp,
    fun m => by simp, fun m => by simp, fun f c => by simp⟩
  · simp [Enroll, hid, hsecret, hctx]
  · simp [Enroll, hid, hsecret, hctx]
  · simp [Enroll, hid, hsecret, hctx]
  · simp [QueryChannels, withRequestContext, hctx]

/-- Witness for C7: an already-canceled context, a concrete enrollment
and a concrete channel query. -/
theorem canceled_context_fails_fast_witness :
    ((Enroll mockCA1 ⟨"Org1MSP", none⟩ canceledCtx crypto1 [] "enrollmentID"
        "enrollmentSecret").result = .error .cancellation ∧
     (Enroll mockCA1 ⟨"Org1MSP", none⟩ canceledCtx crypto1 [] "enrollmentID"
        "enrollmentSecret").networkCalls = 0 ∧
     (Enroll mockCA1 ⟨"Org1MSP", none⟩ canceledCtx crypto1 [] "enrollmentID"
        "enrollmentSecret").store = []) ∧
    QueryChannels canceledCtx ["mychannel"] = (.error .cancellation, 0) :=
  ⟨(canceled_context_fails_fast mockCA1 ⟨"Org1MSP", none⟩ canceledCtx crypto1
      [] "enrollmentID" "enrollmentSecret" ["mychannel"] rfl (by decide)
      (by decide)).1,
   (canceled_context_fails_fast mockCA1 ⟨"Org1MSP", none⟩ canceledCtx crypto1
      [] "enrollmentID" "enrollmentSecret" ["mychannel"] rfl (by decide)
      (by decide)).2.1⟩

/-- Claim C9: a successful `Register` returns to the caller exactly the
one-time secret issued by the CA, unmodified. -/
theorem register_returns_ca_secret (ca : MockCA) (cfg : CAClientCfg)
    (ctx : RequestContext) (reg : IdentityIdentifier)
    (r : RegistrationRequest) (hreg : cfg.registrar = some reg)
    (hname : r.name ≠ "") (hctx : ctx.canceled = false) :
    Register ca cfg ctx (some r) = (.ok (ca.issueSecret r), 1) := by
  simp [Register, hreg, hname, hctx]

/-- Witness for C9: the mock CA issues `mockSecretValue` and the caller
receives `mockSecretValue`. -/
theorem register_returns_ca_secret_witness :
    Register mockCA1 ⟨"Org1MSP", some ⟨"Org1MSP", "registrar"⟩⟩ liveCtx
      (some validReq) = (.ok "mockSecretValue", 1) :=
  register_returns_ca_secret mockCA1 ⟨"Org1MSP", some ⟨"Org1MSP", "registrar"⟩⟩
    liveCtx ⟨"Org1MSP", "registrar"⟩ validReq rfl (by decide) rfl

/-- Claim C10: each connection option applied to the concrete `params`
target mutates only the single field the option names and leaves every
other field unchanged, and applied to a target that does not implement
the option's setter interface it is a no-op. -/
theorem connection_options_frame {σ : Type} (p : params) (t : OptTarget σ)
    (s : σ) (v1 : String) (v2 : Option X509Certificate)
    (v3 : ClientParameters) (v4 : Bool) (v5 : Nat) :
    (WithHostOverride v1 paramsTarget p = { p with hostOverride := v1 }) ∧
    (WithCertificate v2 paramsTarget p = { p with certificate := v2 }) ∧
    (WithKeepAliveParams v3 paramsTarget p = { p with keepAliveParams := v3 }) ∧
    (WithFailFast v4 paramsTarget p = { p with failFast := v4 }) ∧
    (WithConnectTimeout v5 paramsTarget p = { p with connectTimeout := v5 }) ∧
    (WithInsecure paramsTarget p = { p with insecure := true }) ∧
    (t.setHostOverride = none → WithHostOverride v1 t s = s) ∧
    (t.setCertificate = none → WithCertificate v2 t s = s) ∧
    (t.setKeepAliveParams = none → WithKeepAliveParams v3 t s = s) ∧
    (t.setFailFast = none → WithFailFast v4 t s = s) ∧
    (t.setConnectTimeout = none → WithConnectTimeout v5 t s = s) ∧
    (t.setInsecure = none → WithInsecure t s = s) := by
  refine ⟨rfl, rfl, rfl, rfl, rfl, rfl, ?_, ?_, ?_, ?_, ?_, ?_⟩
  · intro h
    simp [WithHostOverride, h]
  · intro h
    simp [WithCertificate, h]
  · intro h
    simp [WithKeepAliveParams, h]
  · intro h
    simp [WithFailFast, h]
  · intro h
    simp [WithConnectTimeout, h]
  · intro h
    simp [WithInsecure, h]

/-- Witness for C10: a mutation on the default parameters and the no-op
behaviour on a target implementing no setter interface. -/
theorem connection_options_frame_witness :
    WithHostOverride "peer0.org1.example.com" paramsTarget defaultParams =
      { defaultParams with hostOverride := "peer0.org1.example.com" } ∧
    WithHostOverride "peer0.org1.example.com" emptyTarget 7 = 7 ∧
    WithInsecure emptyTarget 7 = 7 := by
  have h := connection_options_frame defaultParams emptyTarget (7 : Nat)
    "peer0.org1.example.com" none ⟨0, 0, false⟩ true 5
  exact ⟨h.1, h.2.2.2.2.2.2.1 rfl, h.2.2.2.2.2.2.2.2.2.2.2 rfl⟩

end FabSDK
